import Mathlib

set_option maxRecDepth 16384

/-!
Shallow embedding of the RAG question-answering repository
(`rag_engine.py`, `document_loader.py`) and proofs about it.

Modelling conventions:
* A Python `Document` (langchain) is a structure holding `page_content` and
  the metadata fields actually consulted by this code base
  (`source`, `page`, `title`), each optional since Python metadata is a dict.
* The external FAISS vector store is modelled by its docstore contents
  (`docstore._dict` values in insertion order): `from_documents` initializes
  it from a batch, `add_documents` appends, per the library's documented
  behaviour assumed by the code.
* External callables (the similarity search backend, the generation LLM,
  the PDF/text loaders, the trafilatura and BeautifulSoup extractors) are
  parameters of the embedded functions; a fallible LLM call is a function
  into `Except String String`, where `Except.error` models a raised
  exception.
* Python truthiness on the values this code tests is modelled explicitly:
  an absent-or-`None` metadata value is `Option.none`; `if page:` is false
  for an absent page and for the integer `0`; `if s:` on an optional string
  is false for `None` and for the empty string.
-/

/-- Metadata fields of a langchain `Document` consulted by this code base.
`none` models both an absent key and an explicit `None` value. -/
structure Metadata where
  source : Option String
  page : Option Int
  title : Option String
deriving Repr, DecidableEq

/-- A langchain `Document`: raw text plus provenance metadata. -/
structure Document where
  page_content : String
  metadata : Metadata
deriving Repr, DecidableEq

/-- Model of the external FAISS vector store: the documents held in
`docstore._dict`, in insertion order. -/
structure FAISS where
  docstore : List Document
deriving Repr, DecidableEq

/-- `FAISS.from_documents(documents, embeddings)`: build a new index holding
exactly this batch. -/
def FAISS.from_documents (documents : List Document) : FAISS :=
  ⟨documents⟩

/-- `vectorstore.add_documents(documents)`: append the batch to the existing
index; previously stored documents are untouched. -/
def FAISS.add_documents (vs : FAISS) (documents : List Document) : FAISS :=
  ⟨vs.docstore ++ documents⟩

/-- Mutable state of `RAGEngine` (rag_engine.py): the optional FAISS store
and the conversation history. The embedding and LLM handles are external
capabilities and appear as function parameters where used. -/
structure RAGEngine where
  vectorstore : Option FAISS
  chat_history : List (String × String)
deriving Repr, DecidableEq

/-- `RAGEngine.__init__`: no vector store yet, empty history. -/
def RAGEngine.init : RAGEngine :=
  ⟨none, []⟩

/-- `RAGEngine.add_documents` (rag_engine.py lines 38-43). -/
def RAGEngine.add_documents (e : RAGEngine) (documents : List Document) : RAGEngine :=
  match e.vectorstore with
  | none => ⟨some (FAISS.from_documents documents), e.chat_history⟩
  | some vs => ⟨some (vs.add_documents documents), e.chat_history⟩

/-- `RAGEngine.search` (rag_engine.py lines 45-49). `sim` models the external
`FAISS.similarity_search` call. -/
def RAGEngine.search (sim : FAISS → String → Nat → List Document)
    (e : RAGEngine) (query : String) (k : Nat) : List Document :=
  match e.vectorstore with
  | none => []
  | some vs => sim vs query k

/-- `RAGEngine._format_chat_history` (rag_engine.py lines 51-60). -/
def format_chat_history (chat_history : List (String × String)) : String :=
  if chat_history.isEmpty then "なし"
  else
    String.intercalate "\n"
      (chat_history.flatMap fun p => ["ユーザー: " ++ p.1, "アシスタント: " ++ p.2])

/-- One block of `RAGEngine._format_context` for the chunk of 1-based rank
`i` (rag_engine.py lines 65-72). Mirrors the Python truthiness test
`if page:` on `metadata.get("page", "")`: false for an absent page and for
page `0`. -/
def format_context_block (i : Nat) (doc : Document) : String :=
  let source := doc.metadata.source.getD "不明"
  let source_info := "[出典" ++ toString i ++ ": " ++ source
  let source_info :=
    match doc.metadata.page with
    | some p => if p ≠ 0 then source_info ++ ", ページ" ++ toString (p + 1) else source_info
    | none => source_info
  source_info ++ "]" ++ "\n" ++ doc.page_content

/-- Blocks of `_format_context`, ranks counted from `i`. -/
def format_context_from (i : Nat) : List Document → List String
  | [] => []
  | d :: ds => format_context_block i d :: format_context_from (i + 1) ds

/-- `RAGEngine._format_context` (rag_engine.py lines 62-73):
`enumerate(documents, 1)` then `"\n\n".join`. -/
def format_context (documents : List Document) : String :=
  String.intercalate "\n\n" (format_context_from 1 documents)

/-- The system prompt template (rag_engine.py lines 11-25). -/
def SYSTEM_PROMPT : String :=
  "あなたは提供された文脈のみに基づいて回答するアシスタントです。\n\n以下のルールに従ってください：\n1. 文脈に含まれる情報のみを使用して回答してください\n2. 答えがわからない場合は「この文書には該当する情報がありません」と答えてください\n3. 推測や外部知識は使用しないでください\n\n文脈:\n{context}\n\nチャット履歴:\n{chat_history}\n\n質問: {question}\n回答:"

/-- `self.prompt.format_messages(context=..., chat_history=..., question=...)`:
substitute the three template fields. -/
def format_messages (context chat_history question : String) : String :=
  ((SYSTEM_PROMPT.replace "{context}" context).replace "{chat_history}" chat_history).replace
    "{question}" question

/-- The fixed Empty-state guidance message (rag_engine.py line 78). -/
def no_docs_message : String :=
  "ドキュメントがまだ登録されていません。まずファイルをアップロードするか、URLを追加してください。"

/-- The fixed no-retrieval-results message (rag_engine.py line 83). -/
def no_match_message : String :=
  "関連する情報が見つかりませんでした。"

/-- `RAGEngine.query` (rag_engine.py lines 75-99). Returns the outcome
(`Except.error` models an exception propagating out of `self.llm.invoke`)
together with the engine state after the call; `self.chat_history.append`
happens only after a successful generation. -/
def RAGEngine.query (sim : FAISS → String → Nat → List Document)
    (llm : String → Except String String)
    (e : RAGEngine) (question : String) (k : Nat) :
    Except String (String × List Document) × RAGEngine :=
  match e.vectorstore with
  | none => (Except.ok (no_docs_message, []), e)
  | some _ =>
    let relevant_docs := e.search sim question k
    if relevant_docs.isEmpty then
      (Except.ok (no_match_message, []), e)
    else
      let context := format_context relevant_docs
      let chat_history := format_chat_history e.chat_history
      let messages := format_messages context chat_history question
      match llm messages with
      | Except.error err => (Except.error err, e)
      | Except.ok answer =>
        (Except.ok (answer, relevant_docs),
          ⟨e.vectorstore, e.chat_history ++ [(question, answer)]⟩)

/-- `RAGEngine.clear_history` (rag_engine.py lines 101-103). -/
def RAGEngine.clear_history (e : RAGEngine) : RAGEngine :=
  ⟨e.vectorstore, []⟩

/-- `RAGEngine.clear_all` (rag_engine.py lines 105-108). -/
def RAGEngine.clear_all (_e : RAGEngine) : RAGEngine :=
  ⟨none, []⟩

/-- `RAGEngine.document_count` (rag_engine.py lines 110-115):
`len(self.vectorstore.docstore._dict)`, or 0 with no store. -/
def RAGEngine.document_count (e : RAGEngine) : Nat :=
  match e.vectorstore with
  | none => 0
  | some vs => vs.docstore.length

/-- C3: On an engine in the Empty state (no vector store), `query` with any
question and any `k` raises no exception (the outcome is `Except.ok`),
returns the fixed guidance message that no documents are registered together
with an empty source list, and leaves the whole engine state — in particular
`chat_history` — exactly as it was, whatever the search and generation
backends do. -/
theorem c3_query_empty_guidance (e : RAGEngine) (h : e.vectorstore = none)
    (sim : FAISS → String → Nat → List Document) (llm : String → Except String String)
    (question : String) (k : Nat) :
    e.query sim llm question k = (Except.ok (no_docs_message, []), e) := by
  unfold RAGEngine.query
  rw [h]

/-- Witness for C3 at a concrete Empty-state engine, with backends that
would misbehave if consulted. -/
theorem c3_query_empty_guidance_witness :
    (RAGEngine.init).query (fun vs _ _ => vs.docstore) (fun _ => Except.error "boom")
        "こんにちは" 4
      = (Except.ok (no_docs_message, []), RAGEngine.init) :=
  c3_query_empty_guidance RAGEngine.init rfl (fun vs _ _ => vs.docstore)
    (fun _ => Except.error "boom") "こんにちは" 4

/-- C4: After `clear_all`, from any engine state, `document_count` is 0 and
any subsequent `query` (any question, any `k`, any backends) returns the
Empty-state guidance message with an empty source list. -/
theorem c4_clear_all_resets (e : RAGEngine)
    (sim : FAISS → String → Nat → List Document) (llm : String → Except String String)
    (question : String) (k : Nat) :
    (e.clear_all).document_count = 0
    ∧ (e.clear_all).query sim llm question k
        = (Except.ok (no_docs_message, []), e.clear_all) :=
  ⟨rfl, rfl⟩

/-- C5: Two successive `add_documents` calls on an initially empty engine
give `document_count = len b1 + len b2`: the first call initializes the
index from `b1`, the second appends `b2`, and the store holds exactly
`b1 ++ b2` — no chunk dropped or duplicated. -/
theorem c5_add_documents_twice_count (b1 b2 : List Document)
    (h1 : b1 ≠ []) (h2 : b2 ≠ []) :
    ((RAGEngine.init.add_documents b1).add_documents b2).vectorstore = some ⟨b1 ++ b2⟩
    ∧ ((RAGEngine.init.add_documents b1).add_documents b2).document_count
        = b1.length + b2.length := by
  refine ⟨rfl, ?_⟩
  show (b1 ++ b2).length = b1.length + b2.length
  exact List.length_append b1 b2

/-- Witness for C5 on concrete one- and two-chunk batches. -/
theorem c5_add_documents_twice_count_witness :
    ((RAGEngine.init.add_documents [⟨"第一章", ⟨some "a.pdf", some 0, none⟩⟩]).add_documents
        [⟨"第二章", ⟨some "a.pdf", some 1, none⟩⟩,
         ⟨"第三章", ⟨some "a.pdf", some 2, none⟩⟩]).document_count = 3 := by
  have h := c5_add_documents_twice_count
    [⟨"第一章", ⟨some "a.pdf", some 0, none⟩⟩]
    [⟨"第二章", ⟨some "a.pdf", some 1, none⟩⟩, ⟨"第三章", ⟨some "a.pdf", some 2, none⟩⟩]
    (by simp) (by simp)
  simpa using h.2

/-- C8: `clear_history` empties the conversation turns and is a frame on the
rest of the state: the vector store is unchanged, hence so is
`document_count`. -/
theorem c8_clear_history_frame (e : RAGEngine) :
    (e.clear_history).chat_history = []
    ∧ (e.clear_history).vectorstore = e.vectorstore
    ∧ (e.clear_history).document_count = e.document_count :=
  ⟨rfl, rfl, rfl⟩

/-- Python truthiness of an optional string (`if s:` on a value that is
`None` or a `str`): false for `None` and for the empty string. -/
def py_truthy_str : Option String → Bool
  | none => false
  | some s => !s.isEmpty

/-- Whitespace as Python `str.strip()` removes it (ASCII whitespace;
the titles in question are ordinary text). -/
def is_py_space (c : Char) : Bool :=
  c == ' ' || c == '\t' || c == '\n' || c == '\r' || c == '\x0b' || c == '\x0c'

/-- Python `str.strip()`: drop leading and trailing whitespace. -/
def py_strip (s : String) : String :=
  ⟨((s.data.dropWhile is_py_space).reverse.dropWhile is_py_space).reverse⟩

/-- Title fallback after the og:title check in `_get_page_title`
(document_loader.py lines 161-171): a found `<title>` tag returns its
stripped text even when that text is empty; only an absent tag falls
through to the first `<h1>`; no tag at all gives the empty string. -/
def title_from_tags (tit h1 : Option String) : String :=
  match tit with
  | some t => py_strip t
  | none =>
    match h1 with
    | some h => py_strip h
    | none => ""

/-- `_get_page_title` (document_loader.py lines 152-171). `og` is the
`content` attribute of the og:title meta tag when that tag and attribute
are present (`none` models an absent tag or attribute); `tit` and `h1` are
the text of the `<title>` tag and the first `<h1>` when those tags are
present. The og:title branch fires exactly when the content attribute is
truthy, i.e. non-empty. -/
def get_page_title (og tit h1 : Option String) : String :=
  match og with
  | some c => if !c.isEmpty then py_strip c else title_from_tags tit h1
  | none => title_from_tags tit h1

/-- The content-selection logic of `load_url` (document_loader.py lines
192-199): start from the trafilatura output `traf`; when it is falsy or
under 100 characters consult the BeautifulSoup output `bs_result` and keep
it only when it is truthy and strictly longer. Both arguments are the
already-cleaned outputs of the external extractors. -/
def load_url_content (traf bs_result : Option String) : Option String :=
  if py_truthy_str traf = false ∨ (traf.getD "").length < 100 then
    match bs_result with
    | some b => if !b.isEmpty && decide ((traf.getD "").length < b.length) then some b else traf
    | none => traf
  else traf

/-- The error message raised by `load_url` on insufficient content
(document_loader.py line 202). -/
def insufficient_content_message (url : String) : String :=
  "Could not extract sufficient content from URL: " ++ url

/-- `load_url` (document_loader.py lines 174-212), after the HTTP fetch:
the network call, trafilatura and BeautifulSoup are external, so their
outputs (`og`, `tit`, `h1` for the title; `traf`, `bs_result` for the
content) are parameters. `title = _get_page_title(html) or url`; the
selected content must be truthy and at least 50 characters, else a
`ValueError` (modelled by `Except.error`) is raised; on success exactly one
document is returned carrying the content and `source = url`. -/
def load_url (url : String) (og tit h1 : Option String)
    (traf bs_result : Option String) : Except String (List Document) :=
  let t := get_page_title og tit h1
  let title := if t.isEmpty then url else t
  let content := load_url_content traf bs_result
  if py_truthy_str content = false ∨ (content.getD "").length < 50 then
    Except.error (insufficient_content_message url)
  else
    Except.ok [⟨content.getD "", ⟨some url, none, some title⟩⟩]

/-- Split a character list at every occurrence of `sep`, keeping empty
pieces, as Python `str.split(sep)` does. -/
def split_on_char (sep : Char) : List Char → List (List Char)
  | [] => [[]]
  | a :: as =>
    let rest := split_on_char sep as
    if a == sep then [] :: rest
    else
      match rest with
      | [] => [[a]]
      | g :: gs => (a :: g) :: gs

/-- The final path component, as `pathlib.PurePath.name` on a POSIX path. -/
def path_name (p : String) : String :=
  ⟨(split_on_char '/' p.data).getLastD []⟩

/-- `Path(file_path).suffix`, per CPython: the part of the name from its
last dot onward, provided that dot is neither the first nor the last
character of the name; otherwise the empty string. -/
def path_suffix (p : String) : String :=
  match split_on_char '.' (path_name p).data with
  | [] => ""
  | [_] => ""
  | s0 :: rest =>
    let last := rest.getLastD []
    if (s0 = [] ∧ rest.length = 1) ∨ last = [] then ""
    else ⟨'.' :: last⟩

/-- Python `str.lower()` as used on the extension string (ASCII letters;
extensions here are ASCII). -/
def str_lower (s : String) : String :=
  ⟨s.data.map Char.toLower⟩

/-- `load_document` (document_loader.py lines 215-224): dispatch on the
lower-cased extension; the external `PyPDFLoader` and `TextLoader` are the
parameters `pdf_loader` and `txt_loader`; an unrecognized extension raises
`ValueError` before either loader runs. -/
def load_document (pdf_loader txt_loader : String → List Document)
    (file_path : String) : Except String (List Document) :=
  let ext := str_lower (path_suffix file_path)
  if ext = ".pdf" then Except.ok (pdf_loader file_path)
  else if ext = ".txt" ∨ ext = ".md" then Except.ok (txt_loader file_path)
  else Except.error ("Unsupported file type: " ++ ext)

/-- Configuration of the external `RecursiveCharacterTextSplitter` as
`split_documents` constructs it. -/
structure SplitterConfig where
  chunk_size : Nat
  chunk_overlap : Nat
  separators : List String
deriving Repr, DecidableEq

/-- The third separator string exactly as it appears in
document_loader.py line 237: the three characters U+00E3 U+20AC U+201A,
a Windows-1252 round-trip corruption (mojibake) of the UTF-8 bytes of the
Japanese sentence terminator U+3002. -/
def third_separator : String := "ã€‚"

/-- The splitter configuration built by `split_documents`
(document_loader.py lines 227-239) for given size parameters. -/
def split_documents_config (chunk_size chunk_overlap : Nat) : SplitterConfig :=
  ⟨chunk_size, chunk_overlap, ["\n\n", "\n", third_separator, ".", " ", ""]⟩

/-- Default `chunk_size` of `split_documents`. -/
def split_documents_default_chunk_size : Nat := 500

/-- Default `chunk_overlap` of `split_documents`. -/
def split_documents_default_chunk_overlap : Nat := 100

/-- A concrete extracted article body, comfortably over the 100-character
primary-extractor threshold of `load_url`. -/
def sample_content : String :=
  "This is a sufficiently long extracted article body used to exercise the URL loading pipeline of the model; it comfortably exceeds the one hundred character primary extractor threshold used by load_url."

/-- C1: `_format_context` drops the page citation for page 0. The claim
says a chunk with any present page value `p` shows `ページ{p+1}`, but the
code tests `if page:`, which is false at the integer 0 (the first page of a
PDF in the loader's 0-based scheme). Evaluated at the failing input, the
block for a page-0 chunk carries no page suffix at all, while a page-2
chunk correctly shows `ページ3`. -/
theorem c1_format_context_page_zero :
    format_context [⟨"本文です。", ⟨some "doc.pdf", some 0, none⟩⟩]
        = "[出典1: doc.pdf]\n本文です。"
    ∧ format_context [⟨"本文です。", ⟨some "doc.pdf", some 0, none⟩⟩]
        ≠ "[出典1: doc.pdf, ページ1]\n本文です。"
    ∧ format_context [⟨"二ページ目の本文", ⟨some "doc.pdf", some 2, none⟩⟩]
        = "[出典1: doc.pdf, ページ3]\n二ページ目の本文" := by
  refine ⟨rfl, ?_, rfl⟩
  decide

/-- C2: the separator list passed to the recursive splitter. The chunk-size
defaults (500 and 100) match the claim, but the third separator in the
source is not the Japanese sentence terminator `。` (U+3002): it is the
three-character mojibake string U+00E3 U+20AC U+201A, the Windows-1252
round-trip corruption of `。`'s UTF-8 bytes, so the splitter never breaks
at Japanese sentence boundaries. -/
theorem c2_split_config_mojibake :
    split_documents_config split_documents_default_chunk_size
        split_documents_default_chunk_overlap
      = ⟨500, 100, ["\n\n", "\n", third_separator, ".", " ", ""]⟩
    ∧ third_separator = "ã€‚"
    ∧ third_separator ≠ "。" := by
  refine ⟨rfl, rfl, ?_⟩
  decide

/-- C6: the extraction policy of `load_url`. (1) When the trafilatura
output is truthy and at least 100 characters, the BeautifulSoup fallback is
irrelevant: the result is the same for every fallback output. (2) When the
primary output is missing or under 100 characters, the fallback output is
consulted and the longer of the two is kept (ties keep the primary).
(3) When the selected content is missing or under 50 characters, `load_url`
fails with the insufficient-content error. (4) Otherwise it returns exactly
one document whose `page_content` is the selected text and whose
`metadata.source` is the URL. -/
theorem c6_load_url_fallback_policy (url : String) (og tit h1 : Option String)
    (traf bs_result : Option String) :
    (¬ (py_truthy_str traf = false ∨ (traf.getD "").length < 100) →
      ∀ bs2, load_url url og tit h1 traf bs_result = load_url url og tit h1 traf bs2)
    ∧ ((py_truthy_str traf = false ∨ (traf.getD "").length < 100) →
      load_url_content traf bs_result
        = if py_truthy_str bs_result = true
              ∧ (traf.getD "").length < (bs_result.getD "").length
          then bs_result else traf)
    ∧ ((py_truthy_str (load_url_content traf bs_result) = false
          ∨ ((load_url_content traf bs_result).getD "").length < 50) →
      load_url url og tit h1 traf bs_result
        = Except.error (insufficient_content_message url))
    ∧ (¬ (py_truthy_str (load_url_content traf bs_result) = false
          ∨ ((load_url_content traf bs_result).getD "").length < 50) →
      load_url url og tit h1 traf bs_result
        = Except.ok [⟨(load_url_content traf bs_result).getD "",
            ⟨some url, none,
             some (if (get_page_title og tit h1).isEmpty then url
                   else get_page_title og tit h1)⟩⟩]) := by
  refine ⟨?_, ?_, ?_, ?_⟩
  · intro h bs2
    have e1 : load_url_content traf bs_result = traf := by
      unfold load_url_content
      rw [if_neg h]
    have e2 : load_url_content traf bs2 = traf := by
      unfold load_url_content
      rw [if_neg h]
    simp only [load_url, e1, e2]
  · intro h
    unfold load_url_content
    rw [if_pos h]
    cases bs_result with
    | none => simp [py_truthy_str]
    | some b =>
      by_cases hb : b.isEmpty <;>
        by_cases hlt : (traf.getD "").length < b.length <;>
        simp [py_truthy_str, hb, hlt]
  · intro h
    simp only [load_url]
    rw [if_pos h]
  · intro h
    simp only [load_url]
    rw [if_neg h]

/-- Witness for C6: with an adequate primary extraction, the fallback
output does not influence the result. -/
theorem c6_load_url_fallback_policy_witness :
    load_url "https://example.com/a" none none none (some sample_content) (some "x")
      = load_url "https://example.com/a" none none none (some sample_content) none :=
  (c6_load_url_fallback_policy "https://example.com/a" none none none
      (some sample_content) (some "x")).1 (by decide) none

/-- C7: `load_document` dispatches on the lower-cased extension of the
path: `.pdf` goes to the PDF loader, `.txt` and `.md` to the UTF-8 text
loader, and any other extension fails with the unsupported-file-type error
without consulting either loader (the result is independent of them). -/
theorem c7_load_document_dispatch (pdf_loader txt_loader : String → List Document)
    (file_path : String) :
    (str_lower (path_suffix file_path) = ".pdf" →
      load_document pdf_loader txt_loader file_path = Except.ok (pdf_loader file_path))
    ∧ (str_lower (path_suffix file_path) = ".txt" ∨ str_lower (path_suffix file_path) = ".md" →
      load_document pdf_loader txt_loader file_path = Except.ok (txt_loader file_path))
    ∧ (str_lower (path_suffix file_path) ≠ ".pdf" ∧ str_lower (path_suffix file_path) ≠ ".txt"
          ∧ str_lower (path_suffix file_path) ≠ ".md" →
      (∀ pdf2 txt2 : String → List Document,
        load_document pdf_loader txt_loader file_path = load_document pdf2 txt2 file_path)
      ∧ load_document pdf_loader txt_loader file_path
          = Except.error ("Unsupported file type: " ++ str_lower (path_suffix file_path))) := by
  refine ⟨?_, ?_, ?_⟩
  · intro hp
    simp only [load_document]
    rw [if_pos hp]
  · intro ht
    have hne : ¬ str_lower (path_suffix file_path) = ".pdf" := by
      rcases ht with ht | ht <;> rw [ht] <;> decide
    simp only [load_document]
    rw [if_neg hne, if_pos ht]
  · rintro ⟨hp, ht, hm⟩
    have hno : ¬ (str_lower (path_suffix file_path) = ".txt"
        ∨ str_lower (path_suffix file_path) = ".md") := not_or.mpr ⟨ht, hm⟩
    constructor
    · intro pdf2 txt2
      simp only [load_document, if_neg hp, if_neg hno]
    · simp only [load_document, if_neg hp, if_neg hno]

/-- Witness for C7: a case-normalized PDF extension reaches the PDF loader,
and a `.csv` path fails with the unsupported-file-type error. -/
theorem c7_load_document_dispatch_witness :
    load_document (fun _ => []) (fun _ => []) "Report.PDF" = Except.ok []
    ∧ load_document (fun _ => []) (fun _ => []) "data.csv"
        = Except.error "Unsupported file type: .csv" := by
  constructor
  · exact (c7_load_document_dispatch (fun _ => []) (fun _ => []) "Report.PDF").1 (by decide)
  · have h := ((c7_load_document_dispatch (fun _ => []) (fun _ => []) "data.csv").2.2
      ⟨by decide, by decide, by decide⟩).2
    have he : "Unsupported file type: " ++ str_lower (path_suffix "data.csv")
        = "Unsupported file type: .csv" := by decide
    rw [he] at h
    exact h

/-- C9: if the generation backend raises inside `query` after a non-empty
retrieval, the exception propagates (the outcome is `Except.error`) and the
engine state is returned unchanged: the history append happens only after a
successful generation, and the vector store is untouched. -/
theorem c9_generation_error_propagates (e : RAGEngine) (vs : FAISS)
    (hvs : e.vectorstore = some vs)
    (sim : FAISS → String → Nat → List Document) (llm : String → Except String String)
    (question err : String) (k : Nat)
    (hne : sim vs question k ≠ [])
    (hllm : llm (format_messages (format_context (sim vs question k))
        (format_chat_history e.chat_history) question) = Except.error err) :
    e.query sim llm question k = (Except.error err, e) := by
  obtain ⟨ovs, hist⟩ := e
  simp only [RAGEngine.chat_history] at hllm
  have hv : ovs = some vs := hvs
  subst hv
  cases hds : sim vs question k with
  | nil => exact absurd hds hne
  | cons d ds =>
    rw [hds] at hllm
    simp only [RAGEngine.query, RAGEngine.search, hds, List.isEmpty_cons, if_false,
      Bool.false_eq_true, hllm]

/-- Witness for C9 at a one-document store, a retrieval returning that
document and a generation backend that always raises. -/
theorem c9_generation_error_propagates_witness :
    RAGEngine.query (fun _ _ _ => [⟨"猫は動物です。", ⟨some "a.txt", none, none⟩⟩])
        (fun _ => Except.error "boom")
        ⟨some ⟨[⟨"猫は動物です。", ⟨some "a.txt", none, none⟩⟩]⟩, []⟩ "猫とは" 4
      = (Except.error "boom",
         ⟨some ⟨[⟨"猫は動物です。", ⟨some "a.txt", none, none⟩⟩]⟩, []⟩) :=
  c9_generation_error_propagates
    ⟨some ⟨[⟨"猫は動物です。", ⟨some "a.txt", none, none⟩⟩]⟩, []⟩
    ⟨[⟨"猫は動物です。", ⟨some "a.txt", none, none⟩⟩]⟩ rfl
    (fun _ _ _ => [⟨"猫は動物です。", ⟨some "a.txt", none, none⟩⟩])
    (fun _ => Except.error "boom") "猫とは" "boom" 4 (by simp) rfl

/-- C10 counterexample: the claim's title fallback chain says an empty
`<title>` falls through to the first `<h1>`, but the code returns the
stripped text of any present `<title>` tag even when it is empty, so the
`<h1>` is never consulted and `load_url` stores the URL as the title
instead of the h1 text `見出し`. -/
theorem c10_counterexample :
    load_url "https://example.com/post" none (some "") (some "見出し")
        (some sample_content) none
      = Except.ok [⟨sample_content,
          ⟨some "https://example.com/post", none, some "https://example.com/post"⟩⟩]
    ∧ ("https://example.com/post" : String) ≠ "見出し" := by
  refine ⟨rfl, ?_⟩
  decide

/-- C10 (amended): every document returned by `load_url` carries as title
`_get_page_title`'s result when that is non-empty and otherwise the URL,
where `_get_page_title` prefers a non-empty og:title content, else the
stripped text of a present `<title>` tag (even when empty), else a present
`<h1>`, else empty; in particular for a non-empty URL the stored title is
never the empty string. -/
theorem c10_title_amended (url : String) (og tit h1 traf bs_result : Option String)
    (hurl : url ≠ "") (docs : List Document)
    (hok : load_url url og tit h1 traf bs_result = Except.ok docs)
    (d : Document) (hd : d ∈ docs) :
    d.metadata.title
      = some (if (get_page_title og tit h1).isEmpty then url
              else get_page_title og tit h1)
    ∧ ∀ s, d.metadata.title = some s → s ≠ "" := by
  by_cases hc : (py_truthy_str (load_url_content traf bs_result) = false
      ∨ ((load_url_content traf bs_result).getD "").length < 50)
  · exfalso
    simp only [load_url] at hok
    rw [if_pos hc] at hok
    exact Except.noConfusion hok
  · simp only [load_url] at hok
    rw [if_neg hc] at hok
    have hdocs : [(⟨(load_url_content traf bs_result).getD "",
        ⟨some url, none,
         some (if (get_page_title og tit h1).isEmpty then url
               else get_page_title og tit h1)⟩⟩ : Document)] = docs := by
      injection hok
    rw [← hdocs] at hd
    have hdd := List.mem_singleton.mp hd
    subst hdd
    refine ⟨rfl, ?_⟩
    intro s hs he
    by_cases hemp : (get_page_title og tit h1).isEmpty
    · rw [if_pos hemp] at hs
      have : url = s := by injection hs
      exact hurl (this.trans he)
    · rw [if_neg hemp] at hs
      have : get_page_title og tit h1 = s := by injection hs
      rw [this, he] at hemp
      exact hemp rfl

/-- Witness for the amended C10: a page with no title sources at all stores
the (non-empty) URL as its title. -/
theorem c10_title_amended_witness :
    (⟨sample_content,
      ⟨some "https://example.com/b", none, some "https://example.com/b"⟩⟩ :
        Document).metadata.title ≠ some "" := by
  have h := c10_title_amended "https://example.com/b" none none none
      (some sample_content) none (by decide)
      [⟨sample_content, ⟨some "https://example.com/b", none, some "https://example.com/b"⟩⟩]
      rfl
      ⟨sample_content, ⟨some "https://example.com/b", none, some "https://example.com/b"⟩⟩
      (List.mem_singleton.mpr rfl)
  intro hs
  exact absurd rfl (h.2 "" hs)
